import Mathlib

/-!
Shallow embedding of the k8s-ecstask conversion/validation engine.

Sources embedded here:
- `pkg/ecs/converter.go` — the XPod (namespace-less) converter, namespace `ecsx`;
- the Pod-native (namespace-aware) converter of the `ecs` package, namespace `ecspod`;
- the standalone validator of `cmd/pod-to-ecs-check/main.go`
  (`validatePod`, `validateContainer`, `validateVolume`), namespace `check`.

Go maps are modelled as association lists; where the Go code ranges over a
map (the ECS config tag map), the list order stands for the iteration order
that Go leaves unspecified. Machine integers are modelled as `Int` with
Go's truncating division written `Int.tdiv`.
-/

/-- Models Go `strings.Split(s, sep)` for a one-character separator:
splits on every occurrence, keeping empty fields, `[""]` on the empty string. -/
def splitAux (sep : Char) : List Char → List Char → List (List Char)
  | [], acc => [acc.reverse]
  | c :: rest, acc =>
    if c = sep then acc.reverse :: splitAux sep rest []
    else splitAux sep rest (c :: acc)

/-- Go `strings.Split` on a single-character separator. -/
def goSplit (s : String) (sep : Char) : List String :=
  (splitAux sep s.toList []).map (fun cs => String.mk cs)

/-- Go `strings.ToLower` restricted to ASCII (the only inputs reaching it
here are protocol names such as "TCP"). -/
def goToLowerChar (c : Char) : Char :=
  if 'A' ≤ c ∧ c ≤ 'Z' then Char.ofNat (c.toNat + 32) else c

/-- Go `strings.ToLower` (ASCII). -/
def goToLower (s : String) : String :=
  String.mk (s.toList.map goToLowerChar)

/-- Model of `resource.Quantity`, exposing the two accessors the converter
consults: `MilliValue()` and `Value()` (bytes). -/
structure Quantity where
  milliValue : Int := 0
  value : Int := 0
deriving DecidableEq

/-- Model of `corev1.ResourceList` (a resource-name → quantity map); only the
`cpu` and `memory` entries are ever consulted. -/
structure ResourceList where
  cpu : Option Quantity := none
  memory : Option Quantity := none
deriving DecidableEq

/-- Go `ResourceList.Cpu()`: the cpu entry, or a zero quantity when absent. -/
def ResourceList.Cpu (rl : ResourceList) : Quantity :=
  rl.cpu.getD {}

/-- Go `ResourceList.Memory()`: the memory entry, or a zero quantity when absent. -/
def ResourceList.Memory (rl : ResourceList) : Quantity :=
  rl.memory.getD {}

/-- Model of `corev1.ResourceRequirements`; `none` stands for a nil map. -/
structure ResourceRequirements where
  limits : Option ResourceList := none
  requests : Option ResourceList := none
deriving DecidableEq

/-- Model of `corev1.SecretKeySelector` (name and key). -/
structure SecretKeySelector where
  name : String
  key : String
deriving DecidableEq

/-- Model of `corev1.ConfigMapKeySelector` (name and key). -/
structure ConfigMapKeySelector where
  name : String
  key : String
deriving DecidableEq

/-- Model of `corev1.EnvVarSource`. Field and resource-field references are
modelled by presence only: neither component inspects their contents. -/
structure EnvVarSource where
  secretKeyRef : Option SecretKeySelector := none
  configMapKeyRef : Option ConfigMapKeySelector := none
  fieldRef : Bool := false
  resourceFieldRef : Bool := false
deriving DecidableEq

/-- Model of `corev1.EnvVar`. -/
structure EnvVar where
  name : String
  value : String := ""
  valueFrom : Option EnvVarSource := none
deriving DecidableEq

/-- Model of `corev1.ContainerPort`. -/
structure ContainerPort where
  containerPort : Int := 0
  hostPort : Int := 0
  protocol : String := ""
deriving DecidableEq

/-- Model of `corev1.VolumeMount`. -/
structure VolumeMount where
  name : String
  mountPath : String := ""
  readOnly : Bool := false
deriving DecidableEq

/-- Model of `corev1.Capabilities` (only `Add` is consulted). -/
structure Capabilities where
  add : List String := []
deriving DecidableEq

/-- Model of `corev1.SecurityContext` (only the fields the code consults). -/
structure SecurityContext where
  privileged : Option Bool := none
  capabilities : Option Capabilities := none
deriving DecidableEq

/-- Model of `corev1.Container` (the fields the engine consults; probes are
presence-only since their contents are never inspected). -/
structure Container where
  name : String := ""
  image : String := ""
  command : List String := []
  args : List String := []
  workingDir : String := ""
  ports : List ContainerPort := []
  env : List EnvVar := []
  resources : ResourceRequirements := {}
  volumeMounts : List VolumeMount := []
  securityContext : Option SecurityContext := none
  livenessProbe : Bool := false
  readinessProbe : Bool := false
deriving DecidableEq

/-- Model of `corev1.HostPathVolumeSource`. -/
structure HostPathVolumeSource where
  path : String := ""
deriving DecidableEq

/-- Model of `corev1.Volume`: a name plus the nilable source variants the
engine distinguishes. `emptyDir` and `nfs` are presence-only; `secret` and
`configMap` carry the referenced object name (printed in diagnostics). -/
structure Volume where
  name : String := ""
  hostPath : Option HostPathVolumeSource := none
  emptyDir : Bool := false
  persistentVolumeClaim : Option String := none
  nfs : Bool := false
  secret : Option String := none
  configMap : Option String := none
deriving DecidableEq

/-- Model of `corev1.PodSecurityContext` (only the fields the validator consults). -/
structure PodSecurityContext where
  runAsUser : Option Int := none
  fsGroup : Option Int := none
deriving DecidableEq

/-- Model of `corev1.PodSpec` (the fields the engine consults). -/
structure PodSpec where
  containers : List Container := []
  initContainers : List Container := []
  volumes : List Volume := []
  serviceAccountName : String := ""
  hostNetwork : Bool := false
  hostPID : Bool := false
  hostIPC : Bool := false
  securityContext : Option PodSecurityContext := none
deriving DecidableEq

/-- Model of `corev1.Pod`: metadata (name, namespace, nilable annotation map
as an association list) plus the spec. -/
structure Pod where
  name : String := ""
  ns : String := ""
  annotations : Option (List (String × String)) := none
  spec : PodSpec := {}
deriving DecidableEq

/-- Association-list lookup modelling Go's `m[key]` with its `exists` flag. -/
def lookupAnnotation (l : List (String × String)) (key : String) : Option String :=
  (l.find? (fun kv => kv.1 = key)).map (fun kv => kv.2)

/-- `ECSPortMapping` of the repository's `types.go`. -/
structure ECSPortMapping where
  containerPort : Int := 0
  hostPort : Int := 0
  protocol : String := ""
deriving DecidableEq

/-- `ECSKeyValuePair` of the repository's `types.go`. -/
structure ECSKeyValuePair where
  name : String
  value : String
deriving DecidableEq

/-- `ECSSecret` of the repository's `types.go`. -/
structure ECSSecret where
  name : String
  valueFrom : String
deriving DecidableEq

/-- `ECSMountPoint` of the repository's `types.go`. -/
structure ECSMountPoint where
  sourceVolume : String
  containerPath : String
  readOnly : Bool := false
deriving DecidableEq

/-- `ECSLogConfiguration`; the options map is nilable in Go, hence `Option`. -/
structure ECSLogConfiguration where
  logDriver : String
  options : Option (List (String × String)) := none
deriving DecidableEq

/-- `ECSHostVolume` of the repository's `types.go`. -/
structure ECSHostVolume where
  sourcePath : String := ""
deriving DecidableEq

/-- `ECSVolume` of the repository's `types.go`. -/
structure ECSVolume where
  name : String
  host : Option ECSHostVolume := none
deriving DecidableEq

/-- `ECSTag` of the repository's `types.go`. -/
structure ECSTag where
  key : String
  value : String
deriving DecidableEq

/-- `ECSContainerDefinition` of the repository's `types.go`. -/
structure ECSContainerDefinition where
  name : String := ""
  image : String := ""
  cpu : Int := 0
  memory : Int := 0
  memoryReservation : Int := 0
  essential : Bool := false
  portMappings : List ECSPortMapping := []
  environment : List ECSKeyValuePair := []
  secrets : List ECSSecret := []
  mountPoints : List ECSMountPoint := []
  logConfiguration : Option ECSLogConfiguration := none
  command : List String := []
  entryPoint : List String := []
  workingDirectory : String := ""
deriving DecidableEq

/-- `ECSTaskDefinition` of the repository's `types.go`. -/
structure ECSTaskDefinition where
  family : String := ""
  taskRoleArn : String := ""
  executionRoleArn : String := ""
  networkMode : String := ""
  requiresCompatibilities : List String := []
  cpu : String := ""
  memory : String := ""
  containerDefinitions : List ECSContainerDefinition := []
  volumes : List ECSVolume := []
  tags : List ECSTag := []
deriving DecidableEq

/-- `ConversionOptions` of the repository's `types.go`; the defaults are the
Go zero values, and the nilable log-options map is an `Option`. -/
structure ConversionOptions where
  parameterStorePrefix : String := ""
  defaultLogDriver : String := ""
  defaultLogOptions : Option (List (String × String)) := none
  skipUnsupportedFeatures : Bool := false
  defaultExecutionRoleArn : String := ""
  defaultTaskRoleArn : String := ""
deriving DecidableEq

/-- `ECSConfig`: the ECS-side configuration handed to the Pod-native
converter (fields as constructed and read throughout the repository).
The tag list stands for the Go tag map together with an iteration order. -/
structure ECSConfig where
  family : String := ""
  taskRoleArn : String := ""
  executionRoleArn : String := ""
  networkMode : String := ""
  requiresCompatibilities : List String := []
  cpu : String := ""
  memory : String := ""
  tags : List (String × String) := []
deriving DecidableEq

/-- Decidable equality for `Except` results, so conversion outcomes can be
compared on concrete inputs. -/
instance {ε α : Type} [DecidableEq ε] [DecidableEq α] : DecidableEq (Except ε α) :=
  fun x y =>
  match x, y with
  | Except.ok a, Except.ok b =>
    if h : a = b then isTrue (by rw [h]) else isFalse (by simp [h])
  | Except.error e, Except.error f =>
    if h : e = f then isTrue (by rw [h]) else isFalse (by simp [h])
  | Except.ok _, Except.error _ => isFalse (fun h => Except.noConfusion h)
  | Except.error _, Except.ok _ => isFalse (fun h => Except.noConfusion h)

namespace ecspod

/-- The Pod-native converter (`Converter` of the namespace-aware generation). -/
structure Converter where
  options : ConversionOptions
deriving DecidableEq

/-- `NewConverter`: back-fills the option defaults (log driver `awslogs`,
the default log-option map, Parameter Store prefix `/pods`). -/
def NewConverter (options : ConversionOptions) : Converter :=
  let options :=
    if options.defaultLogDriver = "" then
      { options with defaultLogDriver := "awslogs" }
    else options
  let defaultsMap := [("awslogs-group", "/ecs/task"), ("awslogs-region", "us-east-1")]
  let options :=
    if options.defaultLogOptions = none then
      { options with defaultLogOptions := some defaultsMap }
    else options
  let options :=
    if options.parameterStorePrefix = "" then
      { options with parameterStorePrefix := "/pods" }
    else options
  { options := options }

/-- `getTaskRoleArn`: config value, falling back to the option default. -/
def Converter.getTaskRoleArn (c : Converter) (ecsConfig : ECSConfig) : String :=
  if ecsConfig.taskRoleArn ≠ "" then ecsConfig.taskRoleArn
  else c.options.defaultTaskRoleArn

/-- `getExecutionRoleArn`: config value, falling back to the option default. -/
def Converter.getExecutionRoleArn (c : Converter) (ecsConfig : ECSConfig) : String :=
  if ecsConfig.executionRoleArn ≠ "" then ecsConfig.executionRoleArn
  else c.options.defaultExecutionRoleArn

/-- `getNetworkMode`: config value, falling back to `awsvpc`. -/
def Converter.getNetworkMode (c : Converter) (ecsConfig : ECSConfig) : String :=
  if ecsConfig.networkMode ≠ "" then ecsConfig.networkMode
  else "awsvpc"

/-- `getRequiresCompatibilities`: explicit config list when non-empty, else the
comma-split Pod annotation `ecs.takutakahashi.dev/requires-compatibilities`
when present, else `["FARGATE"]`. -/
def Converter.getRequiresCompatibilities (c : Converter) (ecsConfig : ECSConfig)
    (pod : Option Pod) : List String :=
  if ecsConfig.requiresCompatibilities ≠ [] then
    ecsConfig.requiresCompatibilities
  else
    match pod with
    | some p =>
      match p.annotations with
      | some anns =>
        match lookupAnnotation anns "ecs.takutakahashi.dev/requires-compatibilities" with
        | some compatibilities => goSplit compatibilities ','
        | none => ["FARGATE"]
      | none => ["FARGATE"]
    | none => ["FARGATE"]

/-- `convertResources` (Pod-native generation): CPU milli-value of the limit,
memory limit bytes / (1024*1024), memory-reservation request bytes /
(1024*1024), each 0 when the corresponding map is nil. Returned as
(cpu, memory, memoryReservation). -/
def convertResources (container : Container) : Int × Int × Int :=
  let cpu :=
    match container.resources.limits with
    | some limits => (ResourceList.Cpu limits).milliValue
    | none => 0
  let memory :=
    match container.resources.limits with
    | some limits => Int.tdiv (ResourceList.Memory limits).value (1024 * 1024)
    | none => 0
  let memoryReservation :=
    match container.resources.requests with
    | some requests => Int.tdiv (ResourceList.Memory requests).value (1024 * 1024)
    | none => 0
  (cpu, memory, memoryReservation)

/-- `getParameterStorePathForSecret` (namespace-aware): namespace defaults to
`default` when blank. -/
def Converter.getParameterStorePathForSecret (c : Converter)
    (ns secretName key : String) : String :=
  let ns := if ns = "" then "default" else ns
  c.options.parameterStorePrefix ++ "/" ++ ns ++ "/secrets/" ++ secretName ++ "/" ++ key

/-- `getParameterStorePathForConfigMap` (namespace-aware): namespace defaults
to `default` when blank. -/
def Converter.getParameterStorePathForConfigMap (c : Converter)
    (ns configMapName key : String) : String :=
  let ns := if ns = "" then "default" else ns
  c.options.parameterStorePrefix ++ "/" ++ ns ++ "/configmaps/" ++ configMapName ++ "/" ++ key

/-- `convertEnvironment`: literal values become environment pairs; secret and
config-map references become Parameter Store secret entries; field or
resource-field references fail unless skip-unsupported is set, in which case
the entry is dropped. Returns (environment, secrets). -/
def Converter.convertEnvironment (c : Converter) (ns : String) :
    List EnvVar → Except String (List ECSKeyValuePair × List ECSSecret)
  | [] => Except.ok ([], [])
  | env :: rest =>
    match env.valueFrom with
    | some valueFrom =>
      match valueFrom.secretKeyRef with
      | some secretKeyRef =>
        (c.convertEnvironment ns rest).map (fun p =>
          (p.1, { name := env.name,
                  valueFrom := c.getParameterStorePathForSecret ns
                    secretKeyRef.name secretKeyRef.key } :: p.2))
      | none =>
        match valueFrom.configMapKeyRef with
        | some configMapKeyRef =>
          (c.convertEnvironment ns rest).map (fun p =>
            (p.1, { name := env.name,
                    valueFrom := c.getParameterStorePathForConfigMap ns
                      configMapKeyRef.name configMapKeyRef.key } :: p.2))
        | none =>
          if valueFrom.fieldRef || valueFrom.resourceFieldRef then
            if !c.options.skipUnsupportedFeatures then
              Except.error "field references are not supported in ECS"
            else
              c.convertEnvironment ns rest
          else
            c.convertEnvironment ns rest
    | none =>
      (c.convertEnvironment ns rest).map (fun p =>
        ({ name := env.name, value := env.value } :: p.1, p.2))

/-- `convertContainer`: one ECS container definition per input container. -/
def Converter.convertContainer (c : Converter) (container : Container)
    (ns : String) (essential : Bool) : Except String ECSContainerDefinition :=
  match c.convertEnvironment ns container.env with
  | Except.error e => Except.error ("failed to convert environment: " ++ e)
  | Except.ok (environment, secrets) =>
    let r := convertResources container
    Except.ok {
      name := container.name
      image := container.image
      essential := essential
      cpu := r.1
      memory := r.2.1
      memoryReservation := r.2.2
      portMappings := container.ports.map (fun port =>
        { containerPort := port.containerPort
          hostPort := port.hostPort
          protocol := goToLower port.protocol })
      environment := environment
      secrets := secrets
      entryPoint := container.command
      command := container.args
      workingDirectory := container.workingDir
      mountPoints := container.volumeMounts.map (fun mount =>
        { sourceVolume := mount.name
          containerPath := mount.mountPath
          readOnly := mount.readOnly })
      logConfiguration := some { logDriver := c.options.defaultLogDriver
                                 options := c.options.defaultLogOptions } }

/-- `convertContainers`: converts in declaration order; the first failure
aborts, wrapped with the failing container's name. -/
def Converter.convertContainers (c : Converter) (ns : String) (isInit : Bool) :
    List Container → Except String (List ECSContainerDefinition)
  | [] => Except.ok []
  | container :: rest =>
    match c.convertContainer container ns (!isInit) with
    | Except.error e =>
      Except.error ("failed to convert container " ++ container.name ++ ": " ++ e)
    | Except.ok containerDef =>
      (c.convertContainers ns isInit rest).map (fun defs => containerDef :: defs)

/-- `convertVolumes`: host-path and empty-dir map to ECS host volumes; secret,
config-map, and unrecognized volumes fail unless skip-unsupported is set, in
which case they are omitted. -/
def Converter.convertVolumes (c : Converter) :
    List Volume → Except String (List ECSVolume)
  | [] => Except.ok []
  | volume :: rest =>
    match volume.hostPath with
    | some hostPath =>
      (c.convertVolumes rest).map (fun vs =>
        { name := volume.name, host := some { sourcePath := hostPath.path } } :: vs)
    | none =>
      if volume.emptyDir then
        (c.convertVolumes rest).map (fun vs =>
          { name := volume.name, host := some { sourcePath := "" } } :: vs)
      else if volume.secret.isSome || volume.configMap.isSome then
        if !c.options.skipUnsupportedFeatures then
          Except.error "secret/configmap volumes are not supported in ECS, use Parameter Store instead"
        else
          c.convertVolumes rest
      else
        if !c.options.skipUnsupportedFeatures then
          Except.error ("unsupported volume type for volume " ++ volume.name)
        else
          c.convertVolumes rest

/-- `ConvertPod`: task-level fields from config/options, containers in order,
init containers rejected unless skipped, volumes, then the tag map as an
ordered tag list (absent when the map is empty). -/
def Converter.ConvertPod (c : Converter) (pod : Option Pod) (podSpec : PodSpec)
    (ecsConfig : ECSConfig) (ns : String) : Except String ECSTaskDefinition :=
  match c.convertContainers ns false podSpec.containers with
  | Except.error e => Except.error ("failed to convert containers: " ++ e)
  | Except.ok containerDefs =>
    if podSpec.initContainers.length > 0 && !c.options.skipUnsupportedFeatures then
      Except.error "init containers are not supported in ECS"
    else
      match c.convertVolumes podSpec.volumes with
      | Except.error e => Except.error ("failed to convert volumes: " ++ e)
      | Except.ok volumes =>
        Except.ok {
          family := ecsConfig.family
          taskRoleArn := c.getTaskRoleArn ecsConfig
          executionRoleArn := c.getExecutionRoleArn ecsConfig
          networkMode := c.getNetworkMode ecsConfig
          requiresCompatibilities := c.getRequiresCompatibilities ecsConfig pod
          cpu := ecsConfig.cpu
          memory := ecsConfig.memory
          containerDefinitions := containerDefs
          volumes := volumes
          tags := if ecsConfig.tags.length > 0 then
              ecsConfig.tags.map (fun kv => { key := kv.1, value := kv.2 })
            else [] }

/-- `Convert`: `ConvertPod` with no Pod metadata. -/
def Converter.Convert (c : Converter) (podSpec : PodSpec) (ecsConfig : ECSConfig)
    (ns : String) : Except String ECSTaskDefinition :=
  c.ConvertPod none podSpec ecsConfig ns

end ecspod

namespace ecsx

/-- `XPodSpec` of `pkg/ecs/types.go`: supported Pod fields plus ECS metadata;
the tag list stands for the Go tag map together with an iteration order. -/
structure XPodSpec where
  containers : List Container := []
  initContainers : List Container := []
  volumes : List Volume := []
  serviceAccount : String := ""
  family : String := ""
  taskRoleArn : String := ""
  executionRoleArn : String := ""
  networkMode : String := ""
  requiresCompatibilities : List String := []
  cpu : String := ""
  memory : String := ""
  tags : List (String × String) := []
deriving DecidableEq

/-- The XPod converter (`Converter` of `pkg/ecs/converter.go`). -/
structure Converter where
  options : ConversionOptions
deriving DecidableEq

/-- `NewConverter` of `pkg/ecs/converter.go`: back-fills the option defaults
(log driver `awslogs`, the default log-option map, prefix `/xpod`). -/
def NewConverter (options : ConversionOptions) : Converter :=
  let options :=
    if options.defaultLogDriver = "" then
      { options with defaultLogDriver := "awslogs" }
    else options
  let defaultsMap := [("awslogs-group", "/ecs/task"), ("awslogs-region", "us-east-1")]
  let options :=
    if options.defaultLogOptions = none then
      { options with defaultLogOptions := some defaultsMap }
    else options
  let options :=
    if options.parameterStorePrefix = "" then
      { options with parameterStorePrefix := "/xpod" }
    else options
  { options := options }

/-- `getTaskRoleArn`: spec value, falling back to the option default. -/
def Converter.getTaskRoleArn (c : Converter) (spec : XPodSpec) : String :=
  if spec.taskRoleArn ≠ "" then spec.taskRoleArn
  else c.options.defaultTaskRoleArn

/-- `getExecutionRoleArn`: spec value, falling back to the option default. -/
def Converter.getExecutionRoleArn (c : Converter) (spec : XPodSpec) : String :=
  if spec.executionRoleArn ≠ "" then spec.executionRoleArn
  else c.options.defaultExecutionRoleArn

/-- `getNetworkMode`: spec value, falling back to `awsvpc`. -/
def Converter.getNetworkMode (c : Converter) (spec : XPodSpec) : String :=
  if spec.networkMode ≠ "" then spec.networkMode
  else "awsvpc"

/-- `getRequiresCompatibilities` of `pkg/ecs/converter.go`: spec list when
non-empty, else `["FARGATE"]` (no annotation fallback in this generation). -/
def Converter.getRequiresCompatibilities (c : Converter) (spec : XPodSpec) : List String :=
  if spec.requiresCompatibilities ≠ [] then spec.requiresCompatibilities
  else ["FARGATE"]

/-- `convertResources` of `pkg/ecs/converter.go` (same arithmetic as the
Pod-native generation); returned as (cpu, memory, memoryReservation). -/
def convertResources (container : Container) : Int × Int × Int :=
  let cpu :=
    match container.resources.limits with
    | some limits => (ResourceList.Cpu limits).milliValue
    | none => 0
  let memory :=
    match container.resources.limits with
    | some limits => Int.tdiv (ResourceList.Memory limits).value (1024 * 1024)
    | none => 0
  let memoryReservation :=
    match container.resources.requests with
    | some requests => Int.tdiv (ResourceList.Memory requests).value (1024 * 1024)
    | none => 0
  (cpu, memory, memoryReservation)

/-- `getParameterStorePathForSecret` of `pkg/ecs/converter.go` (no namespace
segment). -/
def Converter.getParameterStorePathForSecret (c : Converter)
    (secretName key : String) : String :=
  c.options.parameterStorePrefix ++ "/secrets/" ++ secretName ++ "/" ++ key

/-- `getParameterStorePathForConfigMap` of `pkg/ecs/converter.go` (no
namespace segment). -/
def Converter.getParameterStorePathForConfigMap (c : Converter)
    (configMapName key : String) : String :=
  c.options.parameterStorePrefix ++ "/configmaps/" ++ configMapName ++ "/" ++ key

/-- `convertEnvironment` of `pkg/ecs/converter.go`. -/
def Converter.convertEnvironment (c : Converter) :
    List EnvVar → Except String (List ECSKeyValuePair × List ECSSecret)
  | [] => Except.ok ([], [])
  | env :: rest =>
    match env.valueFrom with
    | some valueFrom =>
      match valueFrom.secretKeyRef with
      | some secretKeyRef =>
        (c.convertEnvironment rest).map (fun p =>
          (p.1, { name := env.name,
                  valueFrom := c.getParameterStorePathForSecret
                    secretKeyRef.name secretKeyRef.key } :: p.2))
      | none =>
        match valueFrom.configMapKeyRef with
        | some configMapKeyRef =>
          (c.convertEnvironment rest).map (fun p =>
            (p.1, { name := env.name,
                    valueFrom := c.getParameterStorePathForConfigMap
                      configMapKeyRef.name configMapKeyRef.key } :: p.2))
        | none =>
          if valueFrom.fieldRef || valueFrom.resourceFieldRef then
            if !c.options.skipUnsupportedFeatures then
              Except.error "field references are not supported in ECS"
            else
              c.convertEnvironment rest
          else
            c.convertEnvironment rest
    | none =>
      (c.convertEnvironment rest).map (fun p =>
        ({ name := env.name, value := env.value } :: p.1, p.2))

/-- `convertContainer` of `pkg/ecs/converter.go`. -/
def Converter.convertContainer (c : Converter) (container : Container)
    (essential : Bool) : Except String ECSContainerDefinition :=
  match c.convertEnvironment container.env with
  | Except.error e => Except.error ("failed to convert environment: " ++ e)
  | Except.ok (environment, secrets) =>
    let r := convertResources container
    Except.ok {
      name := container.name
      image := container.image
      essential := essential
      cpu := r.1
      memory := r.2.1
      memoryReservation := r.2.2
      portMappings := container.ports.map (fun port =>
        { containerPort := port.containerPort
          hostPort := port.hostPort
          protocol := goToLower port.protocol })
      environment := environment
      secrets := secrets
      entryPoint := container.command
      command := container.args
      workingDirectory := container.workingDir
      mountPoints := container.volumeMounts.map (fun mount =>
        { sourceVolume := mount.name
          containerPath := mount.mountPath
          readOnly := mount.readOnly })
      logConfiguration := some { logDriver := c.options.defaultLogDriver
                                 options := c.options.defaultLogOptions } }

/-- `convertContainers` of `pkg/ecs/converter.go`. -/
def Converter.convertContainers (c : Converter) (isInit : Bool) :
    List Container → Except String (List ECSContainerDefinition)
  | [] => Except.ok []
  | container :: rest =>
    match c.convertContainer container (!isInit) with
    | Except.error e =>
      Except.error ("failed to convert container " ++ container.name ++ ": " ++ e)
    | Except.ok containerDef =>
      (c.convertContainers isInit rest).map (fun defs => containerDef :: defs)

/-- `convertVolumes` of `pkg/ecs/converter.go`. -/
def Converter.convertVolumes (c : Converter) :
    List Volume → Except String (List ECSVolume)
  | [] => Except.ok []
  | volume :: rest =>
    match volume.hostPath with
    | some hostPath =>
      (c.convertVolumes rest).map (fun vs =>
        { name := volume.name, host := some { sourcePath := hostPath.path } } :: vs)
    | none =>
      if volume.emptyDir then
        (c.convertVolumes rest).map (fun vs =>
          { name := volume.name, host := some { sourcePath := "" } } :: vs)
      else if volume.secret.isSome || volume.configMap.isSome then
        if !c.options.skipUnsupportedFeatures then
          Except.error "secret/configmap volumes are not supported in ECS, use Parameter Store instead"
        else
          c.convertVolumes rest
      else
        if !c.options.skipUnsupportedFeatures then
          Except.error ("unsupported volume type for volume " ++ volume.name)
        else
          c.convertVolumes rest

/-- `Convert` of `pkg/ecs/converter.go`: XPod spec to task definition. -/
def Converter.Convert (c : Converter) (spec : XPodSpec) :
    Except String ECSTaskDefinition :=
  match c.convertContainers false spec.containers with
  | Except.error e => Except.error ("failed to convert containers: " ++ e)
  | Except.ok containerDefs =>
    if spec.initContainers.length > 0 && !c.options.skipUnsupportedFeatures then
      Except.error "init containers are not supported in ECS"
    else
      match c.convertVolumes spec.volumes with
      | Except.error e => Except.error ("failed to convert volumes: " ++ e)
      | Except.ok volumes =>
        Except.ok {
          family := spec.family
          taskRoleArn := c.getTaskRoleArn spec
          executionRoleArn := c.getExecutionRoleArn spec
          networkMode := c.getNetworkMode spec
          requiresCompatibilities := c.getRequiresCompatibilities spec
          cpu := spec.cpu
          memory := spec.memory
          containerDefinitions := containerDefs
          volumes := volumes
          tags := if spec.tags.length > 0 then
              spec.tags.map (fun kv => { key := kv.1, value := kv.2 })
            else [] }

end ecsx

namespace check

/-- `ValidationResult` of `cmd/pod-to-ecs-check/main.go`. -/
structure ValidationResult where
  podName : String := ""
  ns : String := ""
  canConvert : Bool := true
  errors : List String := []
  warnings : List String := []
  unsupportedInfo : List String := []
deriving DecidableEq

/-- The per-environment-variable checks inside `validateContainer`'s env loop:
field and resource-field references add unsupported-info entries; secret and
config-map references add warnings. -/
def checkEnvVar (container : Container) (result : ValidationResult) (env : EnvVar) :
    ValidationResult :=
  match env.valueFrom with
  | none => result
  | some valueFrom =>
    let result :=
      if valueFrom.fieldRef then
        { result with unsupportedInfo := result.unsupportedInfo ++
            ["Container '" ++ container.name ++ "' uses field reference for env var '" ++
              env.name ++ "' which is not supported"] }
      else result
    let result :=
      if valueFrom.resourceFieldRef then
        { result with unsupportedInfo := result.unsupportedInfo ++
            ["Container '" ++ container.name ++ "' uses resource field reference for env var '" ++
              env.name ++ "' which is not supported"] }
      else result
    let result :=
      match valueFrom.secretKeyRef with
      | some secretKeyRef =>
        { result with warnings := result.warnings ++
            ["Container '" ++ container.name ++ "' references secret '" ++
              secretKeyRef.name ++ "' - ensure it's migrated to Parameter Store"] }
      | none => result
    let result :=
      match valueFrom.configMapKeyRef with
      | some configMapKeyRef =>
        { result with warnings := result.warnings ++
            ["Container '" ++ container.name ++ "' references configmap '" ++
              configMapKeyRef.name ++ "' - ensure it's migrated to Parameter Store"] }
      | none => result
    result

/-- `validateContainer` of `cmd/pod-to-ecs-check/main.go`: empty image and
privileged mode are hard errors; field references are unsupported-info;
probes, capabilities and missing resources are warnings. -/
def validateContainer (container : Container) (result : ValidationResult) :
    ValidationResult :=
  let result :=
    if container.image = "" then
      { result with
          errors := result.errors ++
            ["Container '" ++ container.name ++ "' has no image specified"]
          canConvert := false }
    else result
  let result := container.env.foldl (fun r env => checkEnvVar container r env) result
  let result :=
    if container.livenessProbe then
      { result with warnings := result.warnings ++
          ["Container '" ++ container.name ++ "' has liveness probe - ECS health checks work differently"] }
    else result
  let result :=
    if container.readinessProbe then
      { result with warnings := result.warnings ++
          ["Container '" ++ container.name ++ "' has readiness probe - ECS uses target group health checks"] }
    else result
  let result :=
    match container.securityContext with
    | none => result
    | some securityContext =>
      let result :=
        if securityContext.privileged.getD false then
          { result with
              errors := result.errors ++
                ["Container '" ++ container.name ++ "' requires privileged mode which is not supported in ECS Fargate"]
              canConvert := false }
        else result
      match securityContext.capabilities with
      | some capabilities =>
        if capabilities.add.length > 0 then
          { result with warnings := result.warnings ++
              ["Container '" ++ container.name ++ "' adds Linux capabilities - verify ECS task role permissions"] }
        else result
      | none => result
  let result :=
    if container.resources.limits = none ∧ container.resources.requests = none then
      { result with warnings := result.warnings ++
          ["Container '" ++ container.name ++ "' has no resource limits/requests - ECS requires CPU and memory specification"] }
    else result
  result

/-- `validateVolume` of `cmd/pod-to-ecs-check/main.go`: PVC and NFS are hard
errors; secret and config-map volumes are unsupported-info; host-path is a
warning. The checks are independent `if`s, as in the source. -/
def validateVolume (volume : Volume) (result : ValidationResult) : ValidationResult :=
  let result :=
    if volume.persistentVolumeClaim.isSome then
      { result with
          errors := result.errors ++
            ["Volume '" ++ volume.name ++ "' uses PersistentVolumeClaim which is not supported in ECS"]
          canConvert := false }
    else result
  let result :=
    if volume.nfs then
      { result with
          errors := result.errors ++
            ["Volume '" ++ volume.name ++ "' uses NFS which requires EFS configuration in ECS"]
          canConvert := false }
    else result
  let result :=
    match volume.secret with
    | some secretName =>
      { result with unsupportedInfo := result.unsupportedInfo ++
          ["Volume '" ++ volume.name ++ "' mounts secret '" ++ secretName ++
            "' - use Parameter Store or Secrets Manager instead"] }
    | none => result
  let result :=
    match volume.configMap with
    | some configMapName =>
      { result with unsupportedInfo := result.unsupportedInfo ++
          ["Volume '" ++ volume.name ++ "' mounts configmap '" ++ configMapName ++
            "' - use Parameter Store instead"] }
    | none => result
  let result :=
    if volume.hostPath.isSome then
      { result with warnings := result.warnings ++
          ["Volume '" ++ volume.name ++ "' uses hostPath - ensure the path is available in ECS"] }
    else result
  result

/-- `validatePod` of `cmd/pod-to-ecs-check/main.go` (the standalone variant
that re-derives the rules): init containers are unsupported-info that flip
`canConvert`; containers and volumes are validated in order; host
network/PID/IPC are hard errors; non-default service account and pod-level
RunAsUser/FSGroup are warnings; `skipWarnings` clears the warning list at
the end when the Pod is convertible. -/
def validatePod (pod : Pod) (skipWarnings : Bool) : ValidationResult :=
  let result : ValidationResult :=
    { podName := pod.name, ns := pod.ns, canConvert := true
      errors := [], warnings := [], unsupportedInfo := [] }
  let result :=
    if pod.spec.initContainers.length > 0 then
      { result with
          unsupportedInfo := result.unsupportedInfo ++
            ["Pod has " ++ toString pod.spec.initContainers.length ++
              " init containers which are not directly supported in ECS"]
          canConvert := false }
    else result
  let result := pod.spec.containers.foldl (fun r container => validateContainer container r) result
  let result := pod.spec.volumes.foldl (fun r volume => validateVolume volume r) result
  let result :=
    if pod.spec.hostNetwork then
      { result with
          errors := result.errors ++
            ["Pod uses host network mode which may require special ECS configuration"]
          canConvert := false }
    else result
  let result :=
    if pod.spec.hostPID then
      { result with
          errors := result.errors ++
            ["Pod uses host PID namespace which is not supported in ECS Fargate"]
          canConvert := false }
    else result
  let result :=
    if pod.spec.hostIPC then
      { result with
          errors := result.errors ++
            ["Pod uses host IPC namespace which is not supported in ECS Fargate"]
          canConvert := false }
    else result
  let result :=
    if pod.spec.serviceAccountName ≠ "" ∧ pod.spec.serviceAccountName ≠ "default" then
      { result with warnings := result.warnings ++
          ["Pod uses service account '" ++ pod.spec.serviceAccountName ++
            "' - ensure appropriate IAM roles are configured for ECS"] }
    else result
  let result :=
    match pod.spec.securityContext with
    | none => result
    | some securityContext =>
      let result :=
        if securityContext.runAsUser.isSome then
          { result with warnings := result.warnings ++
              ["Pod specifies RunAsUser - ECS uses task role for permissions"] }
        else result
      if securityContext.fsGroup.isSome then
        { result with warnings := result.warnings ++
            ["Pod specifies FSGroup - this is not directly supported in ECS"] }
      else result
  let result :=
    if skipWarnings && result.canConvert then
      { result with warnings := [] }
    else result
  result

end check

namespace check

/-- The container-level privileged test of `validateContainer`
(`SecurityContext != nil && Privileged != nil && *Privileged`). -/
def privilegedContainer (container : Container) : Bool :=
  match container.securityContext with
  | some securityContext => securityContext.privileged.getD false
  | none => false

/-- Whether `validateContainer` records a hard error for this container
(empty image or privileged mode). -/
def containerHasError (container : Container) : Bool :=
  container.image == "" || privilegedContainer container

/-- The capabilities warning test of `validateContainer`. -/
def capabilitiesAdded (container : Container) : Bool :=
  match container.securityContext with
  | some securityContext =>
    match securityContext.capabilities with
    | some capabilities => capabilities.add.length > 0
    | none => false
  | none => false

/-- The error strings `validateContainer` appends for one container. -/
def containerErrors (container : Container) : List String :=
  (if container.image = "" then
    ["Container '" ++ container.name ++ "' has no image specified"]
  else []) ++
  (if privilegedContainer container then
    ["Container '" ++ container.name ++ "' requires privileged mode which is not supported in ECS Fargate"]
  else [])

/-- The unsupported-info strings the env loop appends for one env var. -/
def envVarInfos (container : Container) (env : EnvVar) : List String :=
  match env.valueFrom with
  | none => []
  | some valueFrom =>
    (if valueFrom.fieldRef then
      ["Container '" ++ container.name ++ "' uses field reference for env var '" ++
        env.name ++ "' which is not supported"]
    else []) ++
    (if valueFrom.resourceFieldRef then
      ["Container '" ++ container.name ++ "' uses resource field reference for env var '" ++
        env.name ++ "' which is not supported"]
    else [])

/-- The warning strings the env loop appends for one env var. -/
def envVarWarnings (container : Container) (env : EnvVar) : List String :=
  match env.valueFrom with
  | none => []
  | some valueFrom =>
    (match valueFrom.secretKeyRef with
     | some secretKeyRef =>
       ["Container '" ++ container.name ++ "' references secret '" ++
         secretKeyRef.name ++ "' - ensure it's migrated to Parameter Store"]
     | none => []) ++
    (match valueFrom.configMapKeyRef with
     | some configMapKeyRef =>
       ["Container '" ++ container.name ++ "' references configmap '" ++
         configMapKeyRef.name ++ "' - ensure it's migrated to Parameter Store"]
     | none => [])

/-- The unsupported-info strings `validateContainer` appends for one container. -/
def containerInfos (container : Container) : List String :=
  container.env.flatMap (envVarInfos container)

/-- The warning strings `validateContainer` appends for one container. -/
def containerWarnings (container : Container) : List String :=
  container.env.flatMap (envVarWarnings container) ++
  (if container.livenessProbe then
    ["Container '" ++ container.name ++ "' has liveness probe - ECS health checks work differently"]
  else []) ++
  (if container.readinessProbe then
    ["Container '" ++ container.name ++ "' has readiness probe - ECS uses target group health checks"]
  else []) ++
  (if capabilitiesAdded container then
    ["Container '" ++ container.name ++ "' adds Linux capabilities - verify ECS task role permissions"]
  else []) ++
  (if container.resources.limits = none ∧ container.resources.requests = none then
    ["Container '" ++ container.name ++ "' has no resource limits/requests - ECS requires CPU and memory specification"]
  else [])

/-- Whether `validateVolume` records a hard error for this volume (PVC or NFS). -/
def volumeHasError (volume : Volume) : Bool :=
  volume.persistentVolumeClaim.isSome || volume.nfs

/-- The error strings `validateVolume` appends for one volume. -/
def volumeErrors (volume : Volume) : List String :=
  (if volume.persistentVolumeClaim.isSome then
    ["Volume '" ++ volume.name ++ "' uses PersistentVolumeClaim which is not supported in ECS"]
  else []) ++
  (if volume.nfs then
    ["Volume '" ++ volume.name ++ "' uses NFS which requires EFS configuration in ECS"]
  else [])

/-- The unsupported-info strings `validateVolume` appends for one volume. -/
def volumeInfos (volume : Volume) : List String :=
  (match volume.secret with
   | some secretName =>
     ["Volume '" ++ volume.name ++ "' mounts secret '" ++ secretName ++
       "' - use Parameter Store or Secrets Manager instead"]
   | none => []) ++
  (match volume.configMap with
   | some configMapName =>
     ["Volume '" ++ volume.name ++ "' mounts configmap '" ++ configMapName ++
       "' - use Parameter Store instead"]
   | none => [])

/-- The warning strings `validateVolume` appends for one volume. -/
def volumeWarnings (volume : Volume) : List String :=
  if volume.hostPath.isSome then
    ["Volume '" ++ volume.name ++ "' uses hostPath - ensure the path is available in ECS"]
  else []

/-- `canConvert` as `validatePod` finally reports it. -/
def podCanConvert (pod : Pod) : Bool :=
  !(pod.spec.initContainers.length > 0) &&
  pod.spec.containers.all (fun container => !containerHasError container) &&
  pod.spec.volumes.all (fun volume => !volumeHasError volume) &&
  !pod.spec.hostNetwork && !pod.spec.hostPID && !pod.spec.hostIPC

/-- The error list `validatePod` finally reports. -/
def podErrors (pod : Pod) : List String :=
  pod.spec.containers.flatMap containerErrors ++
  pod.spec.volumes.flatMap volumeErrors ++
  (if pod.spec.hostNetwork then
    ["Pod uses host network mode which may require special ECS configuration"]
  else []) ++
  (if pod.spec.hostPID then
    ["Pod uses host PID namespace which is not supported in ECS Fargate"]
  else []) ++
  (if pod.spec.hostIPC then
    ["Pod uses host IPC namespace which is not supported in ECS Fargate"]
  else [])

/-- The warning list `validatePod` accumulates (before the skip-warnings step). -/
def podWarnings (pod : Pod) : List String :=
  pod.spec.containers.flatMap containerWarnings ++
  pod.spec.volumes.flatMap volumeWarnings ++
  (if pod.spec.serviceAccountName ≠ "" ∧ pod.spec.serviceAccountName ≠ "default" then
    ["Pod uses service account '" ++ pod.spec.serviceAccountName ++
      "' - ensure appropriate IAM roles are configured for ECS"]
  else []) ++
  (match pod.spec.securityContext with
   | none => []
   | some securityContext =>
     (if securityContext.runAsUser.isSome then
       ["Pod specifies RunAsUser - ECS uses task role for permissions"]
     else []) ++
     (if securityContext.fsGroup.isSome then
       ["Pod specifies FSGroup - this is not directly supported in ECS"]
     else []))

/-- The unsupported-info list `validatePod` finally reports. -/
def podInfos (pod : Pod) : List String :=
  (if pod.spec.initContainers.length > 0 then
    ["Pod has " ++ toString pod.spec.initContainers.length ++
      " init containers which are not directly supported in ECS"]
  else []) ++
  pod.spec.containers.flatMap containerInfos ++
  pod.spec.volumes.flatMap volumeInfos

end check

/-- Erases the security context of a container (a field the converter never
reads). -/
def scrubContainer (container : Container) : Container :=
  { container with securityContext := none }

/-- Erases from a Pod spec every security-relevant field the converter never
reads: host network/PID/IPC flags, the pod security context, and each
container's security context. -/
def scrubPodSpec (spec : PodSpec) : PodSpec :=
  { spec with
      containers := spec.containers.map scrubContainer
      initContainers := spec.initContainers.map scrubContainer
      hostNetwork := false
      hostPID := false
      hostIPC := false
      securityContext := none }

/-- A task definition with its tag list erased (for comparing conversions up
to tag order). -/
def stripTags (td : ECSTaskDefinition) : ECSTaskDefinition :=
  { td with tags := [] }

/-- Quantity `500m`: 500 milli-units (Value() rounds up to 1). -/
def q500m : Quantity := { milliValue := 500, value := 1 }

/-- Quantity `512Mi`: 536870912 bytes. -/
def q512Mi : Quantity := { milliValue := 536870912000, value := 536870912 }

/-- Quantity `256Mi`: 268435456 bytes. -/
def q256Mi : Quantity := { milliValue := 268435456000, value := 268435456 }

/-- Quantity `100m`. -/
def q100m : Quantity := { milliValue := 100, value := 1 }

/-- Quantity `128Mi`: 134217728 bytes. -/
def q128Mi : Quantity := { milliValue := 134217728000, value := 134217728 }

/-- Container with CPU limit 500m, memory limit 512Mi, memory request 256Mi. -/
def containerC5 : Container :=
  { name := "app", image := "app:latest"
    resources := { limits := some { cpu := some q500m, memory := some q512Mi }
                   requests := some { memory := some q256Mi } } }

/-- Container with a memory request of 256Mi and no limits at all. -/
def containerC5req : Container :=
  { name := "app", image := "app:latest"
    resources := { requests := some { memory := some q256Mi } } }

/-- Container with image and resource limits (100m CPU, 128Mi memory). -/
def containerGood : Container :=
  { name := "nginx", image := "nginx:latest"
    resources := { limits := some { cpu := some q100m, memory := some q128Mi } } }

/-- A plainly convertible pod: one container with image and resource limits. -/
def podGood : Pod :=
  { name := "test-pod", ns := "default", spec := { containers := [containerGood] } }

/-- A pod whose only defect is a container with an empty image string. -/
def podEmptyImage : Pod :=
  { name := "noimg", ns := "default", spec := { containers := [{ name := "app" }] } }

/-- A privileged container with image and resource limits. -/
def containerPriv : Container :=
  { name := "app", image := "app:latest"
    securityContext := some { privileged := some true }
    resources := { limits := some { cpu := some q100m, memory := some q128Mi } } }

/-- A pod with a privileged container (hard error) and a custom service
account (warning). -/
def podPrivSA : Pod :=
  { name := "priv", ns := "default"
    spec := { containers := [containerPriv], serviceAccountName := "custom-sa" } }

/-- A well-formed app container with image and resource limits. -/
def containerApp : Container :=
  { name := "app", image := "app:latest"
    resources := { limits := some { cpu := some q100m, memory := some q128Mi } } }

/-- A pod with an init container and a secret volume (two unsupported-info
signals, no hard-error signal). -/
def podInitPlusSecretVolume : Pod :=
  { name := "initsec", ns := "default"
    spec := { initContainers := [{ name := "init", image := "busybox" }]
              containers := [containerApp]
              volumes := [{ name := "sv", secret := some "app-secret" }] } }

/-- A pod whose only blocking feature is an init container. -/
def podInitOnly : Pod :=
  { name := "init", ns := "default"
    spec := { initContainers := [{ name := "init", image := "busybox" }]
              containers := [containerApp] } }

/-- The Pod-native converter with all-default options (skip disabled). -/
def conv0 : ecspod.Converter := ecspod.NewConverter {}

/-- The Pod-native converter with skip-unsupported enabled. -/
def convSkip : ecspod.Converter := ecspod.NewConverter { skipUnsupportedFeatures := true }

/-- The Pod-native converter with Parameter Store prefix `/myapp`. -/
def convMyapp : ecspod.Converter := ecspod.NewConverter { parameterStorePrefix := "/myapp" }

/-- The XPod converter with Parameter Store prefix `/myapp`. -/
def convMyappX : ecsx.Converter := ecsx.NewConverter { parameterStorePrefix := "/myapp" }

/-- A pod carrying the requires-compatibilities annotation `FARGATE,EXTERNAL`. -/
def podAnn : Pod :=
  { name := "a", ns := "default"
    annotations := some [("ecs.takutakahashi.dev/requires-compatibilities", "FARGATE,EXTERNAL")] }

/-- A pod carrying the requires-compatibilities annotation `FARGATE, EXTERNAL`
(with a space after the comma). -/
def podAnnSpace : Pod :=
  { name := "a", ns := "default"
    annotations := some [("ecs.takutakahashi.dev/requires-compatibilities", "FARGATE, EXTERNAL")] }

/-- An ECS config with a two-entry tag map in one iteration order. -/
def cfg8 : ECSConfig := { family := "fam", tags := [("a", "1"), ("b", "2")] }

/-- The same ECS config with the opposite tag iteration order. -/
def cfg8r : ECSConfig := { family := "fam", tags := [("b", "2"), ("a", "1")] }

/-- A minimal convertible pod spec. -/
def spec8 : PodSpec := { containers := [{ name := "app", image := "nginx" }] }

/-- A pod spec with one ordinary container and one init container. -/
def specInit : PodSpec :=
  { containers := [{ name := "app", image := "app:latest" }]
    initContainers := [{ name := "init", image := "busybox" }] }

/-- A privileged app container without resource limits. -/
def container9priv : Container :=
  { name := "app", image := "app:latest"
    securityContext := some { privileged := some true } }

/-- A pod spec with a privileged container and host networking. -/
def spec9priv : PodSpec :=
  { containers := [container9priv], hostNetwork := true }

/-- The same workload as `spec9priv` without any security-context fields. -/
def spec9plain : PodSpec :=
  { containers := [{ name := "app", image := "app:latest" }] }


namespace check

/-- The init-container step of `validatePod` (first `if`). -/
def initStep (pod : Pod) (result : ValidationResult) : ValidationResult :=
  if pod.spec.initContainers.length > 0 then
    { result with
        unsupportedInfo := result.unsupportedInfo ++
          ["Pod has " ++ toString pod.spec.initContainers.length ++
            " init containers which are not directly supported in ECS"]
        canConvert := false }
  else result

/-- The host-network step of `validatePod`. -/
def hostNetworkStep (pod : Pod) (result : ValidationResult) : ValidationResult :=
  if pod.spec.hostNetwork then
    { result with
        errors := result.errors ++
          ["Pod uses host network mode which may require special ECS configuration"]
        canConvert := false }
  else result

/-- The host-PID step of `validatePod`. -/
def hostPIDStep (pod : Pod) (result : ValidationResult) : ValidationResult :=
  if pod.spec.hostPID then
    { result with
        errors := result.errors ++
          ["Pod uses host PID namespace which is not supported in ECS Fargate"]
        canConvert := false }
  else result

/-- The host-IPC step of `validatePod`. -/
def hostIPCStep (pod : Pod) (result : ValidationResult) : ValidationResult :=
  if pod.spec.hostIPC then
    { result with
        errors := result.errors ++
          ["Pod uses host IPC namespace which is not supported in ECS Fargate"]
        canConvert := false }
  else result

/-- The service-account step of `validatePod`. -/
def serviceAccountStep (pod : Pod) (result : ValidationResult) : ValidationResult :=
  if pod.spec.serviceAccountName ≠ "" ∧ pod.spec.serviceAccountName ≠ "default" then
    { result with warnings := result.warnings ++
        ["Pod uses service account '" ++ pod.spec.serviceAccountName ++
          "' - ensure appropriate IAM roles are configured for ECS"] }
  else result

/-- The pod-security-context step of `validatePod`. -/
def securityContextStep (pod : Pod) (result : ValidationResult) : ValidationResult :=
  match pod.spec.securityContext with
  | none => result
  | some securityContext =>
    let result :=
      if securityContext.runAsUser.isSome then
        { result with warnings := result.warnings ++
            ["Pod specifies RunAsUser - ECS uses task role for permissions"] }
      else result
    if securityContext.fsGroup.isSome then
      { result with warnings := result.warnings ++
          ["Pod specifies FSGroup - this is not directly supported in ECS"] }
    else result

/-- The final skip-warnings step of `validatePod`. -/
def skipStep (skipWarnings : Bool) (result : ValidationResult) : ValidationResult :=
  if skipWarnings && result.canConvert then
    { result with warnings := [] }
  else result

end check

namespace check

lemma checkEnvVar_eq (container : Container) (r : ValidationResult) (env : EnvVar) :
    checkEnvVar container r env =
      { r with warnings := r.warnings ++ envVarWarnings container env
               unsupportedInfo := r.unsupportedInfo ++ envVarInfos container env } := by
  cases h : env.valueFrom with
  | none => simp [checkEnvVar, envVarWarnings, envVarInfos, h]
  | some vf =>
    obtain ⟨skr, cmr, fr, rfr⟩ := vf
    cases skr <;> cases cmr <;> cases fr <;> cases rfr <;>
      simp [checkEnvVar, envVarWarnings, envVarInfos, h]

lemma foldl_checkEnvVar_eq (container : Container) (envs : List EnvVar) (r : ValidationResult) :
    envs.foldl (fun r env => checkEnvVar container r env) r =
      { r with warnings := r.warnings ++ envs.flatMap (envVarWarnings container)
               unsupportedInfo := r.unsupportedInfo ++ envs.flatMap (envVarInfos container) } := by
  induction envs generalizing r with
  | nil => simp
  | cons e rest ih =>
    rw [List.foldl_cons, checkEnvVar_eq, ih]
    simp [List.append_assoc]

set_option maxHeartbeats 1000000

lemma validateContainer_eq (container : Container) (r : ValidationResult) :
    validateContainer container r =
      { r with errors := r.errors ++ containerErrors container
               warnings := r.warnings ++ containerWarnings container
               unsupportedInfo := r.unsupportedInfo ++ containerInfos container
               canConvert := r.canConvert && !containerHasError container } := by
  simp only [validateContainer, foldl_checkEnvVar_eq]
  unfold containerErrors containerWarnings containerInfos containerHasError privilegedContainer capabilitiesAdded
  by_cases hi : container.image = "" <;>
    cases hl : container.livenessProbe <;>
    cases hrp : container.readinessProbe <;>
    by_cases hlim : container.resources.limits = none <;>
    by_cases hreq : container.resources.requests = none <;>
    rcases hsc : container.securityContext with _ | ⟨_ | b, _ | ⟨add⟩⟩
  all_goals try cases b
  all_goals try by_cases hadd : 0 < add.add.length
  all_goals simp_all [List.append_assoc]

lemma validateVolume_eq (volume : Volume) (r : ValidationResult) :
    validateVolume volume r =
      { r with errors := r.errors ++ volumeErrors volume
               warnings := r.warnings ++ volumeWarnings volume
               unsupportedInfo := r.unsupportedInfo ++ volumeInfos volume
               canConvert := r.canConvert && !volumeHasError volume } := by
  unfold validateVolume volumeErrors volumeWarnings volumeInfos volumeHasError
  by_cases hp : volume.persistentVolumeClaim.isSome <;>
    cases hn : volume.nfs <;>
    rcases hs : volume.secret with _ | sn <;>
    rcases hc : volume.configMap with _ | cn <;>
    by_cases hh : volume.hostPath.isSome <;>
    simp_all [List.append_assoc]

lemma foldl_validateContainer_eq (containers : List Container) (r : ValidationResult) :
    containers.foldl (fun r container => validateContainer container r) r =
      { r with errors := r.errors ++ containers.flatMap containerErrors
               warnings := r.warnings ++ containers.flatMap containerWarnings
               unsupportedInfo := r.unsupportedInfo ++ containers.flatMap containerInfos
               canConvert := r.canConvert &&
                 containers.all (fun container => !containerHasError container) } := by
  induction containers generalizing r with
  | nil => simp
  | cons c rest ih =>
    rw [List.foldl_cons, validateContainer_eq, ih]
    simp [List.append_assoc, Bool.and_assoc]

lemma foldl_validateVolume_eq (volumes : List Volume) (r : ValidationResult) :
    volumes.foldl (fun r volume => validateVolume volume r) r =
      { r with errors := r.errors ++ volumes.flatMap volumeErrors
               warnings := r.warnings ++ volumes.flatMap volumeWarnings
               unsupportedInfo := r.unsupportedInfo ++ volumes.flatMap volumeInfos
               canConvert := r.canConvert &&
                 volumes.all (fun volume => !volumeHasError volume) } := by
  induction volumes generalizing r with
  | nil => simp
  | cons v rest ih =>
    rw [List.foldl_cons, validateVolume_eq, ih]
    simp [List.append_assoc, Bool.and_assoc]


lemma validatePod_steps (pod : Pod) (skipWarnings : Bool) :
    validatePod pod skipWarnings =
      skipStep skipWarnings
        (securityContextStep pod
          (serviceAccountStep pod
            (hostIPCStep pod
              (hostPIDStep pod
                (hostNetworkStep pod
                  (pod.spec.volumes.foldl (fun r volume => validateVolume volume r)
                    (pod.spec.containers.foldl (fun r container => validateContainer container r)
                      (initStep pod
                        { podName := pod.name, ns := pod.ns, canConvert := true
                          errors := [], warnings := [], unsupportedInfo := [] })))))))) := rfl

lemma initStep_eq (pod : Pod) (r : ValidationResult) :
    initStep pod r =
      { r with
          unsupportedInfo := r.unsupportedInfo ++
            (if pod.spec.initContainers.length > 0 then
              ["Pod has " ++ toString pod.spec.initContainers.length ++
                " init containers which are not directly supported in ECS"]
            else [])
          canConvert := r.canConvert && !decide (pod.spec.initContainers.length > 0) } := by
  by_cases h : pod.spec.initContainers.length > 0 <;> simp [initStep, h]

lemma hostNetworkStep_eq (pod : Pod) (r : ValidationResult) :
    hostNetworkStep pod r =
      { r with
          errors := r.errors ++
            (if pod.spec.hostNetwork then
              ["Pod uses host network mode which may require special ECS configuration"]
            else [])
          canConvert := r.canConvert && !pod.spec.hostNetwork } := by
  cases h : pod.spec.hostNetwork <;> simp [hostNetworkStep, h]

lemma hostPIDStep_eq (pod : Pod) (r : ValidationResult) :
    hostPIDStep pod r =
      { r with
          errors := r.errors ++
            (if pod.spec.hostPID then
              ["Pod uses host PID namespace which is not supported in ECS Fargate"]
            else [])
          canConvert := r.canConvert && !pod.spec.hostPID } := by
  cases h : pod.spec.hostPID <;> simp [hostPIDStep, h]

lemma hostIPCStep_eq (pod : Pod) (r : ValidationResult) :
    hostIPCStep pod r =
      { r with
          errors := r.errors ++
            (if pod.spec.hostIPC then
              ["Pod uses host IPC namespace which is not supported in ECS Fargate"]
            else [])
          canConvert := r.canConvert && !pod.spec.hostIPC } := by
  cases h : pod.spec.hostIPC <;> simp [hostIPCStep, h]

lemma serviceAccountStep_eq (pod : Pod) (r : ValidationResult) :
    serviceAccountStep pod r =
      { r with warnings := r.warnings ++
          (if pod.spec.serviceAccountName ≠ "" ∧ pod.spec.serviceAccountName ≠ "default" then
            ["Pod uses service account '" ++ pod.spec.serviceAccountName ++
              "' - ensure appropriate IAM roles are configured for ECS"]
          else []) } := by
  by_cases h1 : pod.spec.serviceAccountName = "" <;>
    by_cases h2 : pod.spec.serviceAccountName = "default" <;>
    simp [serviceAccountStep, h1, h2]

lemma securityContextStep_eq (pod : Pod) (r : ValidationResult) :
    securityContextStep pod r =
      { r with warnings := r.warnings ++
          (match pod.spec.securityContext with
           | none => []
           | some securityContext =>
             (if securityContext.runAsUser.isSome then
               ["Pod specifies RunAsUser - ECS uses task role for permissions"]
             else []) ++
             (if securityContext.fsGroup.isSome then
               ["Pod specifies FSGroup - this is not directly supported in ECS"]
             else [])) } := by
  rcases h : pod.spec.securityContext with _ | ⟨_ | u, _ | g⟩ <;>
    simp [securityContextStep, h]

lemma skipStep_false (r : ValidationResult) : skipStep false r = r := by
  simp [skipStep]

lemma validatePod_false_eq (pod : Pod) :
    validatePod pod false =
      { podName := pod.name, ns := pod.ns
        canConvert := podCanConvert pod
        errors := podErrors pod
        warnings := podWarnings pod
        unsupportedInfo := podInfos pod } := by
  rw [validatePod_steps]
  simp only [foldl_validateContainer_eq, foldl_validateVolume_eq, initStep_eq,
    hostNetworkStep_eq, hostPIDStep_eq, hostIPCStep_eq, serviceAccountStep_eq,
    securityContextStep_eq, skipStep_false]
  simp [podErrors, podWarnings, podInfos, podCanConvert, List.append_assoc, Bool.and_assoc]

lemma validatePod_skip_restructure (pod : Pod) (skipWarnings : Bool) :
    validatePod pod skipWarnings =
      (if skipWarnings && (validatePod pod false).canConvert then
        { validatePod pod false with warnings := [] }
      else validatePod pod false) := by
  cases skipWarnings with
  | false => simp [validatePod]
  | true => simp only [validatePod]; simp

end check

/-- C1: for every secret environment reference the emitted Parameter Store
path is exactly `{prefix}/secrets/{secretName}/{key}` in the namespace-less
converter and `{prefix}/{namespace}/secrets/{secretName}/{key}` in the
namespace-aware converter (and the same shapes with a `configmaps/` segment
for config-map references); in particular secret `my-secret` key `password`
under prefix `/myapp` yields `/myapp/secrets/my-secret/password`
namespace-less and `/myapp/prod/secrets/my-secret/password` with namespace
`prod`. -/
theorem C1_parameter_store_paths
    (cx : ecsx.Converter) (cp : ecspod.Converter) (ns name key : String)
    (h : ns ≠ "") :
    cx.getParameterStorePathForSecret name key
      = cx.options.parameterStorePrefix ++ "/secrets/" ++ name ++ "/" ++ key ∧
    cx.getParameterStorePathForConfigMap name key
      = cx.options.parameterStorePrefix ++ "/configmaps/" ++ name ++ "/" ++ key ∧
    cp.getParameterStorePathForSecret ns name key
      = cp.options.parameterStorePrefix ++ "/" ++ ns ++ "/secrets/" ++ name ++ "/" ++ key ∧
    cp.getParameterStorePathForConfigMap ns name key
      = cp.options.parameterStorePrefix ++ "/" ++ ns ++ "/configmaps/" ++ name ++ "/" ++ key ∧
    convMyappX.getParameterStorePathForSecret "my-secret" "password"
      = "/myapp/secrets/my-secret/password" ∧
    convMyapp.getParameterStorePathForSecret "prod" "my-secret" "password"
      = "/myapp/prod/secrets/my-secret/password" := by
  refine ⟨rfl, rfl, ?_, ?_, by decide, by decide⟩
  · simp [ecspod.Converter.getParameterStorePathForSecret, h]
  · simp [ecspod.Converter.getParameterStorePathForConfigMap, h]

/-- Witness for C1 at namespace `prod`, secret `my-secret`, key `password`. -/
theorem C1_parameter_store_paths_witness :
    convMyapp.getParameterStorePathForSecret "prod" "my-secret" "password"
      = convMyapp.options.parameterStorePrefix ++ "/" ++ "prod" ++ "/secrets/" ++
        "my-secret" ++ "/" ++ "password" :=
  (C1_parameter_store_paths convMyappX convMyapp "prod" "my-secret" "password"
    (by decide)).2.2.1

/-- C5: the converted container's CPU is the milli-value of the CPU limit
(0 when the limits map is nil), Memory is the memory-limit byte value
divided by 1048576 with truncation (0 when nil), and MemoryReservation is
the memory-request byte value divided by 1048576 with truncation (0 when
nil), computed from requests independently of limits; CPU limit 500m and
memory limit 512Mi yield CPU 500 and Memory 512, and a memory request of
256Mi yields MemoryReservation 256 even with no limits. -/
theorem C5_resource_conversion :
    (∀ (container : Container) (limits : ResourceList) (q : Quantity),
        container.resources.limits = some limits → limits.cpu = some q →
        (ecspod.convertResources container).1 = q.milliValue) ∧
    (∀ container : Container, container.resources.limits = none →
        (ecspod.convertResources container).1 = 0) ∧
    (∀ (container : Container) (limits : ResourceList) (q : Quantity),
        container.resources.limits = some limits → limits.memory = some q →
        (ecspod.convertResources container).2.1 = Int.tdiv q.value 1048576) ∧
    (∀ container : Container, container.resources.limits = none →
        (ecspod.convertResources container).2.1 = 0) ∧
    (∀ (container : Container) (requests : ResourceList) (q : Quantity),
        container.resources.requests = some requests → requests.memory = some q →
        (ecspod.convertResources container).2.2 = Int.tdiv q.value 1048576) ∧
    (∀ container : Container, container.resources.requests = none →
        (ecspod.convertResources container).2.2 = 0) ∧
    (∀ (cp : ecspod.Converter) (container : Container) (ns : String)
        (essential : Bool) (cd : ECSContainerDefinition),
        cp.convertContainer container ns essential = Except.ok cd →
        cd.cpu = (ecspod.convertResources container).1 ∧
        cd.memory = (ecspod.convertResources container).2.1 ∧
        cd.memoryReservation = (ecspod.convertResources container).2.2) ∧
    ecspod.convertResources containerC5 = (500, 512, 256) ∧
    ecspod.convertResources containerC5req = (0, 0, 256) := by
  refine ⟨?_, ?_, ?_, ?_, ?_, ?_, ?_, by decide, by decide⟩
  · intro container limits q hl hq
    simp [ecspod.convertResources, hl, hq, ResourceList.Cpu]
  · intro container hl
    simp [ecspod.convertResources, hl]
  · intro container limits q hl hq
    simp [ecspod.convertResources, hl, hq, ResourceList.Memory]
  · intro container hl
    simp [ecspod.convertResources, hl]
  · intro container requests q hr hq
    simp [ecspod.convertResources, hr, hq, ResourceList.Memory]
  · intro container hr
    simp [ecspod.convertResources, hr]
  · intro cp container ns essential cd h
    unfold ecspod.Converter.convertContainer at h
    cases he : cp.convertEnvironment ns container.env with
    | error e => rw [he] at h; exact absurd h (fun hh => Except.noConfusion hh)
    | ok p =>
      obtain ⟨environment, secrets⟩ := p
      rw [he] at h
      simp only [Except.ok.injEq] at h
      subst h
      exact ⟨rfl, rfl, rfl⟩

/-- Witness for C5 at the concrete 500m/512Mi/256Mi container and at the
request-without-limit container. -/
theorem C5_resource_conversion_witness :
    (ecspod.convertResources containerC5).1 = q500m.milliValue ∧
    (ecspod.convertResources containerC5req).2.2 = Int.tdiv q256Mi.value 1048576 :=
  ⟨C5_resource_conversion.1 containerC5
      { cpu := some q500m, memory := some q512Mi } q500m rfl rfl,
   C5_resource_conversion.2.2.2.2.1 containerC5req
      { memory := some q256Mi } q256Mi rfl rfl⟩

/-- C6 counterexample: the annotation value `FARGATE, EXTERNAL` is split on
commas without trimming, yielding a second entry with a leading space, not
the trimmed `EXTERNAL` the claim requires. -/
theorem C6_counterexample :
    conv0.getRequiresCompatibilities {} (some podAnnSpace) = ["FARGATE", " EXTERNAL"] ∧
    (["FARGATE", " EXTERNAL"] : List String) ≠ ["FARGATE", "EXTERNAL"] :=
  ⟨by decide, by decide⟩

/-- C6 (amended): required compatibilities fall back, in order, to the
explicit config list when non-empty, else the Pod annotation
`ecs.takutakahashi.dev/requires-compatibilities` split on commas verbatim
(values are NOT trimmed of surrounding whitespace), else `["FARGATE"]`;
the annotation value `FARGATE,EXTERNAL` yields `["FARGATE","EXTERNAL"]`
in that order. -/
theorem C6_requires_compatibilities
    (c : ecspod.Converter) (ecsConfig : ECSConfig) (pod : Pod)
    (anns : List (String × String)) (v : String) :
    (ecsConfig.requiresCompatibilities ≠ [] →
      c.getRequiresCompatibilities ecsConfig (some pod) = ecsConfig.requiresCompatibilities) ∧
    (ecsConfig.requiresCompatibilities = [] → pod.annotations = some anns →
      lookupAnnotation anns "ecs.takutakahashi.dev/requires-compatibilities" = some v →
      c.getRequiresCompatibilities ecsConfig (some pod) = goSplit v ',') ∧
    (ecsConfig.requiresCompatibilities = [] → pod.annotations = some anns →
      lookupAnnotation anns "ecs.takutakahashi.dev/requires-compatibilities" = none →
      c.getRequiresCompatibilities ecsConfig (some pod) = ["FARGATE"]) ∧
    (ecsConfig.requiresCompatibilities = [] → pod.annotations = none →
      c.getRequiresCompatibilities ecsConfig (some pod) = ["FARGATE"]) ∧
    (ecsConfig.requiresCompatibilities = [] →
      c.getRequiresCompatibilities ecsConfig none = ["FARGATE"]) ∧
    conv0.getRequiresCompatibilities {} (some podAnn) = ["FARGATE", "EXTERNAL"] := by
  refine ⟨?_, ?_, ?_, ?_, ?_, by decide⟩
  · intro h
    simp [ecspod.Converter.getRequiresCompatibilities, h]
  · intro h ha hl
    simp [ecspod.Converter.getRequiresCompatibilities, h, ha, hl]
  · intro h ha hl
    simp [ecspod.Converter.getRequiresCompatibilities, h, ha, hl]
  · intro h ha
    simp [ecspod.Converter.getRequiresCompatibilities, h, ha]
  · intro h
    simp [ecspod.Converter.getRequiresCompatibilities, h]

/-- Witness for C6 (amended): an explicit config list wins over the annotation. -/
theorem C6_requires_compatibilities_witness :
    conv0.getRequiresCompatibilities { requiresCompatibilities := ["EC2"] } (some podAnn)
      = ["EC2"] :=
  (C6_requires_compatibilities conv0 { requiresCompatibilities := ["EC2"] } podAnn [] "").1
    (by decide)


/-- C2 counterexample: for this Pod (privileged container, custom service
account) validatePod with skipWarnings = true returns canConvert = false and
a NON-empty warning list: the warning list is only cleared for convertible
Pods, contradicting "returns a result whose Warnings list is empty ...
regardless of whether the Pod is convertible". -/
theorem C2_counterexample :
    (check.validatePod podPrivSA true).canConvert = false ∧
    (check.validatePod podPrivSA true).warnings ≠ [] :=
  ⟨by decide, by decide⟩

/-- C2 (amended): skipWarnings = true never affects the Errors list, the
UnsupportedInfo list, or CanConvert; it empties the warning list exactly when
the Pod is convertible, and leaves it unchanged when it is not. -/
theorem C2_skip_warnings (pod : Pod) :
    (check.validatePod pod true).errors = (check.validatePod pod false).errors ∧
    (check.validatePod pod true).unsupportedInfo
      = (check.validatePod pod false).unsupportedInfo ∧
    (check.validatePod pod true).canConvert = (check.validatePod pod false).canConvert ∧
    ((check.validatePod pod false).canConvert = true →
      (check.validatePod pod true).warnings = []) ∧
    ((check.validatePod pod false).canConvert = false →
      (check.validatePod pod true).warnings = (check.validatePod pod false).warnings) := by
  rw [check.validatePod_skip_restructure pod true]
  cases h : (check.validatePod pod false).canConvert <;> simp [h]

/-- Witness for C2 (amended) at a non-convertible Pod with warnings. -/
theorem C2_skip_warnings_witness :
    (check.validatePod podPrivSA true).warnings = (check.validatePod podPrivSA false).warnings :=
  (C2_skip_warnings podPrivSA).2.2.2.2 (by decide)

/-- C3 counterexample: this Pod satisfies every premise of the claim (no init
containers, no host-namespace flags, no privileged container, no volumes at
all) yet validatePod reports canConvert = false with a non-empty error list,
because a container has an empty image. -/
theorem C3_counterexample :
    podEmptyImage.spec.initContainers = [] ∧
    podEmptyImage.spec.hostNetwork = false ∧
    podEmptyImage.spec.hostPID = false ∧
    podEmptyImage.spec.hostIPC = false ∧
    podEmptyImage.spec.containers.all
      (fun container => !check.privilegedContainer container) = true ∧
    podEmptyImage.spec.volumes = [] ∧
    (check.validatePod podEmptyImage false).canConvert = false ∧
    (check.validatePod podEmptyImage false).errors ≠ [] := by
  decide

/-- C3 (amended): for every Pod with no init containers, no host
network/PID/IPC flags, no privileged container, no unsupported volume
sources, and — additionally — a non-empty image on every container,
validatePod returns CanConvert = true and an empty Errors list. -/
theorem C3_validator_accepts (pod : Pod)
    (hinit : pod.spec.initContainers = [])
    (hhn : pod.spec.hostNetwork = false)
    (hhp : pod.spec.hostPID = false)
    (hhi : pod.spec.hostIPC = false)
    (hc : ∀ container ∈ pod.spec.containers,
      container.image ≠ "" ∧ check.privilegedContainer container = false)
    (hv : ∀ volume ∈ pod.spec.volumes,
      volume.persistentVolumeClaim = none ∧ volume.nfs = false ∧
      volume.secret = none ∧ volume.configMap = none) :
    (check.validatePod pod false).canConvert = true ∧
    (check.validatePod pod false).errors = [] := by
  rw [check.validatePod_false_eq]
  have hca : pod.spec.containers.all
      (fun container => !check.containerHasError container) = true := by
    rw [List.all_eq_true]
    intro c hcmem
    obtain ⟨h1, h2⟩ := hc c hcmem
    simp [check.containerHasError, h1, h2]
  have hva : pod.spec.volumes.all
      (fun volume => !check.volumeHasError volume) = true := by
    rw [List.all_eq_true]
    intro v hvmem
    obtain ⟨h1, h2, -, -⟩ := hv v hvmem
    simp [check.volumeHasError, h1, h2]
  have hce : pod.spec.containers.flatMap check.containerErrors = [] := by
    rw [List.flatMap_eq_nil_iff]
    intro c hcmem
    obtain ⟨h1, h2⟩ := hc c hcmem
    simp [check.containerErrors, h1, h2]
  have hve : pod.spec.volumes.flatMap check.volumeErrors = [] := by
    rw [List.flatMap_eq_nil_iff]
    intro v hvmem
    obtain ⟨h1, h2, -, -⟩ := hv v hvmem
    simp [check.volumeErrors, h1, h2]
  constructor
  · show check.podCanConvert pod = true
    simp [check.podCanConvert, hinit, hhn, hhp, hhi, hca, hva]
  · show check.podErrors pod = []
    simp [check.podErrors, hhn, hhp, hhi, hce, hve]

/-- Witness for C3 (amended) at a plainly convertible Pod. -/
theorem C3_validator_accepts_witness :
    (check.validatePod podGood false).canConvert = true ∧
    (check.validatePod podGood false).errors = [] :=
  C3_validator_accepts podGood rfl rfl rfl rfl (by decide) (by decide)

/-- C7: every Pod with at least one container whose image is empty gets at
least one entry in Errors and CanConvert = false. -/
theorem C7_empty_image (pod : Pod) (container : Container)
    (hmem : container ∈ pod.spec.containers) (himg : container.image = "") :
    (check.validatePod pod false).errors ≠ [] ∧
    (check.validatePod pod false).canConvert = false := by
  rw [check.validatePod_false_eq]
  constructor
  · show check.podErrors pod ≠ []
    unfold check.podErrors
    intro hnil
    simp only [List.append_eq_nil] at hnil
    have h1 := hnil.1.1.1.1
    have h2 := List.flatMap_eq_nil_iff.mp h1 container hmem
    simp [check.containerErrors, himg] at h2
  · show check.podCanConvert pod = false
    have hca : pod.spec.containers.all
        (fun container => !check.containerHasError container) = false := by
      rw [List.all_eq_false]
      refine ⟨container, hmem, ?_⟩
      simp [check.containerHasError, himg]
    simp [check.podCanConvert, hca]

/-- Witness for C7 at the empty-image Pod. -/
theorem C7_empty_image_witness :
    (check.validatePod podEmptyImage false).errors ≠ [] ∧
    (check.validatePod podEmptyImage false).canConvert = false :=
  C7_empty_image podEmptyImage { name := "app" } (by decide) rfl

/-- C10 counterexample: this Pod's only error-class feature is its init
container (Errors is empty), yet it produces TWO unsupportedInfo entries
(init containers and a secret volume), refuting "exactly one UnsupportedInfo
entry". -/
theorem C10_counterexample :
    (check.validatePod podInitPlusSecretVolume false).canConvert = false ∧
    (check.validatePod podInitPlusSecretVolume false).errors = [] ∧
    (check.validatePod podInitPlusSecretVolume false).unsupportedInfo.length = 2 := by
  decide

/-- C10 (amended): for every Pod whose only blocking feature is the presence
of init containers — no other error condition AND no other unsupported-info
source (no field/resource-field env references, no secret/config-map
volumes) — validatePod returns CanConvert = false, an empty Errors list and
exactly one UnsupportedInfo entry; hence CanConvert = false does not imply
a non-empty Errors list. -/
theorem C10_init_only (pod : Pod)
    (hinit : pod.spec.initContainers ≠ [])
    (hhn : pod.spec.hostNetwork = false)
    (hhp : pod.spec.hostPID = false)
    (hhi : pod.spec.hostIPC = false)
    (hc : ∀ container ∈ pod.spec.containers,
      container.image ≠ "" ∧ check.privilegedContainer container = false ∧
      ∀ env ∈ container.env, check.envVarInfos container env = [])
    (hv : ∀ volume ∈ pod.spec.volumes,
      volume.persistentVolumeClaim = none ∧ volume.nfs = false ∧
      volume.secret = none ∧ volume.configMap = none) :
    (check.validatePod pod false).canConvert = false ∧
    (check.validatePod pod false).errors = [] ∧
    (check.validatePod pod false).unsupportedInfo.length = 1 := by
  rw [check.validatePod_false_eq]
  have hlen : pod.spec.initContainers.length > 0 := List.length_pos.mpr hinit
  refine ⟨?_, ?_, ?_⟩
  · show check.podCanConvert pod = false
    simp [check.podCanConvert, hlen]
  · show check.podErrors pod = []
    have hce : pod.spec.containers.flatMap check.containerErrors = [] := by
      rw [List.flatMap_eq_nil_iff]
      intro c hcmem
      obtain ⟨h1, h2, -⟩ := hc c hcmem
      simp [check.containerErrors, h1, h2]
    have hve : pod.spec.volumes.flatMap check.volumeErrors = [] := by
      rw [List.flatMap_eq_nil_iff]
      intro v hvmem
      obtain ⟨h1, h2, -, -⟩ := hv v hvmem
      simp [check.volumeErrors, h1, h2]
    simp [check.podErrors, hhn, hhp, hhi, hce, hve]
  · show (check.podInfos pod).length = 1
    have hci : pod.spec.containers.flatMap check.containerInfos = [] := by
      rw [List.flatMap_eq_nil_iff]
      intro c hcmem
      obtain ⟨-, -, h3⟩ := hc c hcmem
      simpa [check.containerInfos, List.flatMap_eq_nil_iff] using h3
    have hvi : pod.spec.volumes.flatMap check.volumeInfos = [] := by
      rw [List.flatMap_eq_nil_iff]
      intro v hvmem
      obtain ⟨-, -, h3, h4⟩ := hv v hvmem
      simp [check.volumeInfos, h3, h4]
    simp [check.podInfos, hlen, hci, hvi]

/-- Witness for C10 (amended) at a Pod whose only blocking feature is one
init container. -/
theorem C10_init_only_witness :
    (check.validatePod podInitOnly false).canConvert = false ∧
    (check.validatePod podInitOnly false).errors = [] ∧
    (check.validatePod podInitOnly false).unsupportedInfo.length = 1 :=
  C10_init_only podInitOnly (by decide) rfl rfl rfl (by decide) (by decide)

namespace ecspod

lemma convertEnvironment_total (c : Converter)
    (h : c.options.skipUnsupportedFeatures = true) (ns : String) (envs : List EnvVar) :
    ∃ p, c.convertEnvironment ns envs = Except.ok p := by
  induction envs with
  | nil => exact ⟨([], []), rfl⟩
  | cons env rest ih =>
    obtain ⟨⟨e1, s1⟩, hp⟩ := ih
    cases hv : env.valueFrom with
    | none =>
      refine ⟨({ name := env.name, value := env.value } :: e1, s1), ?_⟩
      simp [Converter.convertEnvironment, hv, hp, Except.map]
    | some vf =>
      rcases vf with ⟨skr, cmr, fr, rfr⟩
      cases skr with
      | some secretKeyRef =>
        refine ⟨(e1, { name := env.name, valueFrom := c.getParameterStorePathForSecret ns secretKeyRef.name secretKeyRef.key } :: s1), ?_⟩
        simp [Converter.convertEnvironment, hv, hp, Except.map]
      | none =>
        cases cmr with
        | some configMapKeyRef =>
          refine ⟨(e1, { name := env.name, valueFrom := c.getParameterStorePathForConfigMap ns configMapKeyRef.name configMapKeyRef.key } :: s1), ?_⟩
          simp [Converter.convertEnvironment, hv, hp, Except.map]
        | none =>
          refine ⟨(e1, s1), ?_⟩
          simp [Converter.convertEnvironment, hv, hp, h]

lemma convertContainer_total (c : Converter)
    (h : c.options.skipUnsupportedFeatures = true) (container : Container)
    (ns : String) (essential : Bool) :
    ∃ cd, c.convertContainer container ns essential = Except.ok cd := by
  obtain ⟨⟨environment, secrets⟩, hp⟩ := convertEnvironment_total c h ns container.env
  exact ⟨_, by unfold Converter.convertContainer; rw [hp]⟩

lemma convertContainers_total (c : Converter)
    (h : c.options.skipUnsupportedFeatures = true) (ns : String) (isInit : Bool)
    (containers : List Container) :
    ∃ defs, c.convertContainers ns isInit containers = Except.ok defs := by
  induction containers with
  | nil => exact ⟨[], rfl⟩
  | cons container rest ih =>
    obtain ⟨defs, hd⟩ := ih
    obtain ⟨cd, hc⟩ := convertContainer_total c h container ns (!isInit)
    refine ⟨cd :: defs, ?_⟩
    unfold Converter.convertContainers
    rw [hc, hd]
    rfl

lemma convertVolumes_total (c : Converter)
    (h : c.options.skipUnsupportedFeatures = true) (volumes : List Volume) :
    ∃ vs, c.convertVolumes volumes = Except.ok vs := by
  induction volumes with
  | nil => exact ⟨[], rfl⟩
  | cons volume rest ih =>
    obtain ⟨vs, hv⟩ := ih
    cases hh : volume.hostPath with
    | some hostPath =>
      refine ⟨{ name := volume.name, host := some { sourcePath := hostPath.path } } :: vs, ?_⟩
      simp [Converter.convertVolumes, hh, hv, Except.map]
    | none =>
      cases he : volume.emptyDir with
      | true =>
        refine ⟨{ name := volume.name, host := some { sourcePath := "" } } :: vs, ?_⟩
        simp [Converter.convertVolumes, hh, he, hv, Except.map]
      | false =>
        refine ⟨vs, ?_⟩
        simp [Converter.convertVolumes, hh, he, hv, h]

end ecspod

namespace ecsx

lemma convertEnvironment_totalX (c : Converter)
    (h : c.options.skipUnsupportedFeatures = true) (envs : List EnvVar) :
    ∃ p, c.convertEnvironment envs = Except.ok p := by
  induction envs with
  | nil => exact ⟨([], []), rfl⟩
  | cons env rest ih =>
    obtain ⟨⟨e1, s1⟩, hp⟩ := ih
    cases hv : env.valueFrom with
    | none =>
      refine ⟨({ name := env.name, value := env.value } :: e1, s1), ?_⟩
      simp [Converter.convertEnvironment, hv, hp, Except.map]
    | some vf =>
      rcases vf with ⟨skr, cmr, fr, rfr⟩
      cases skr with
      | some secretKeyRef =>
        refine ⟨(e1, { name := env.name, valueFrom := c.getParameterStorePathForSecret secretKeyRef.name secretKeyRef.key } :: s1), ?_⟩
        simp [Converter.convertEnvironment, hv, hp, Except.map]
      | none =>
        cases cmr with
        | some configMapKeyRef =>
          refine ⟨(e1, { name := env.name, valueFrom := c.getParameterStorePathForConfigMap configMapKeyRef.name configMapKeyRef.key } :: s1), ?_⟩
          simp [Converter.convertEnvironment, hv, hp, Except.map]
        | none =>
          refine ⟨(e1, s1), ?_⟩
          simp [Converter.convertEnvironment, hv, hp, h]

lemma convertContainer_totalX (c : Converter)
    (h : c.options.skipUnsupportedFeatures = true) (container : Container)
    (essential : Bool) :
    ∃ cd, c.convertContainer container essential = Except.ok cd := by
  obtain ⟨⟨environment, secrets⟩, hp⟩ := convertEnvironment_totalX c h container.env
  exact ⟨_, by unfold Converter.convertContainer; rw [hp]⟩

lemma convertContainers_totalX (c : Converter)
    (h : c.options.skipUnsupportedFeatures = true) (isInit : Bool)
    (containers : List Container) :
    ∃ defs, c.convertContainers isInit containers = Except.ok defs := by
  induction containers with
  | nil => exact ⟨[], rfl⟩
  | cons container rest ih =>
    obtain ⟨defs, hd⟩ := ih
    obtain ⟨cd, hc⟩ := convertContainer_totalX c h container (!isInit)
    refine ⟨cd :: defs, ?_⟩
    unfold Converter.convertContainers
    rw [hc, hd]
    rfl

lemma convertVolumes_totalX (c : Converter)
    (h : c.options.skipUnsupportedFeatures = true) (volumes : List Volume) :
    ∃ vs, c.convertVolumes volumes = Except.ok vs := by
  induction volumes with
  | nil => exact ⟨[], rfl⟩
  | cons volume rest ih =>
    obtain ⟨vs, hv⟩ := ih
    cases hh : volume.hostPath with
    | some hostPath =>
      refine ⟨{ name := volume.name, host := some { sourcePath := hostPath.path } } :: vs, ?_⟩
      simp [Converter.convertVolumes, hh, hv, Except.map]
    | none =>
      cases he : volume.emptyDir with
      | true =>
        refine ⟨{ name := volume.name, host := some { sourcePath := "" } } :: vs, ?_⟩
        simp [Converter.convertVolumes, hh, he, hv, Except.map]
      | false =>
        refine ⟨vs, ?_⟩
        simp [Converter.convertVolumes, hh, he, hv, h]

end ecsx

namespace ecspod

lemma ConvertPod_skip_true (c : Converter)
    (h : c.options.skipUnsupportedFeatures = true)
    (pod : Option Pod) (podSpec : PodSpec) (ecsConfig : ECSConfig) (ns : String)
    (defs : List ECSContainerDefinition) (vols : List ECSVolume)
    (hd : c.convertContainers ns false podSpec.containers = Except.ok defs)
    (hv : c.convertVolumes podSpec.volumes = Except.ok vols) :
    c.ConvertPod pod podSpec ecsConfig ns = Except.ok
      { family := ecsConfig.family
        taskRoleArn := c.getTaskRoleArn ecsConfig
        executionRoleArn := c.getExecutionRoleArn ecsConfig
        networkMode := c.getNetworkMode ecsConfig
        requiresCompatibilities := c.getRequiresCompatibilities ecsConfig pod
        cpu := ecsConfig.cpu
        memory := ecsConfig.memory
        containerDefinitions := defs
        volumes := vols
        tags := if ecsConfig.tags.length > 0 then
            ecsConfig.tags.map (fun kv => { key := kv.1, value := kv.2 })
          else [] } := by
  unfold Converter.ConvertPod
  rw [hd]
  simp [h, hv]

lemma convertContainer_scrub (c : Converter) (container : Container)
    (ns : String) (essential : Bool) :
    c.convertContainer (scrubContainer container) ns essential
      = c.convertContainer container ns essential := rfl

lemma scrubContainer_name (container : Container) :
    (scrubContainer container).name = container.name := rfl

lemma convertContainers_scrub (c : Converter) (ns : String) (isInit : Bool)
    (containers : List Container) :
    c.convertContainers ns isInit (containers.map scrubContainer)
      = c.convertContainers ns isInit containers := by
  induction containers with
  | nil => rfl
  | cons x rest ih =>
    simp only [List.map_cons, Converter.convertContainers, convertContainer_scrub,
      scrubContainer_name, ih]

lemma ConvertPod_scrub (c : Converter) (pod : Option Pod) (spec : PodSpec)
    (ecsConfig : ECSConfig) (ns : String) :
    c.ConvertPod pod (scrubPodSpec spec) ecsConfig ns
      = c.ConvertPod pod spec ecsConfig ns := by
  unfold Converter.ConvertPod scrubPodSpec
  simp only [convertContainers_scrub, List.length_map]

end ecspod

namespace ecsx

lemma Convert_skip_true (c : Converter)
    (h : c.options.skipUnsupportedFeatures = true) (spec : XPodSpec)
    (defs : List ECSContainerDefinition) (vols : List ECSVolume)
    (hd : c.convertContainers false spec.containers = Except.ok defs)
    (hv : c.convertVolumes spec.volumes = Except.ok vols) :
    c.Convert spec = Except.ok
      { family := spec.family
        taskRoleArn := c.getTaskRoleArn spec
        executionRoleArn := c.getExecutionRoleArn spec
        networkMode := c.getNetworkMode spec
        requiresCompatibilities := c.getRequiresCompatibilities spec
        cpu := spec.cpu
        memory := spec.memory
        containerDefinitions := defs
        volumes := vols
        tags := if spec.tags.length > 0 then
            spec.tags.map (fun kv => { key := kv.1, value := kv.2 })
          else [] } := by
  unfold Converter.Convert
  rw [hd]
  simp [h, hv]

end ecsx

/-- C4: for every Pod specification with at least one init container, both
converters with SkipUnsupportedFeatures = false return an error and no task
definition, and with SkipUnsupportedFeatures = true return a task definition
whose container definitions are exactly the conversions of the non-init
containers — the result is the same as for the spec with its init containers
removed, so init containers are omitted, never emitted. -/
theorem C4_init_containers (o : ConversionOptions) (pod : Option Pod)
    (podSpec : PodSpec) (ecsConfig : ECSConfig) (ns : String) (spec : ecsx.XPodSpec)
    (hinit : podSpec.initContainers ≠ []) (hinitx : spec.initContainers ≠ []) :
    (o.skipUnsupportedFeatures = false →
      (∃ e, (ecspod.Converter.mk o).ConvertPod pod podSpec ecsConfig ns = Except.error e) ∧
      (∃ e, (ecsx.Converter.mk o).Convert spec = Except.error e)) ∧
    (o.skipUnsupportedFeatures = true →
      (∃ td, (ecspod.Converter.mk o).ConvertPod pod podSpec ecsConfig ns = Except.ok td ∧
        Except.ok td.containerDefinitions
          = (ecspod.Converter.mk o).convertContainers ns false podSpec.containers) ∧
      ((ecspod.Converter.mk o).ConvertPod pod podSpec ecsConfig ns
        = (ecspod.Converter.mk o).ConvertPod pod
            { podSpec with initContainers := [] } ecsConfig ns) ∧
      (∃ td, (ecsx.Converter.mk o).Convert spec = Except.ok td ∧
        Except.ok td.containerDefinitions
          = (ecsx.Converter.mk o).convertContainers false spec.containers) ∧
      ((ecsx.Converter.mk o).Convert spec
        = (ecsx.Converter.mk o).Convert { spec with initContainers := [] })) := by
  constructor
  · intro hskip
    constructor
    · cases hc : (ecspod.Converter.mk o).convertContainers ns false podSpec.containers with
      | error e =>
        exact ⟨_, by unfold ecspod.Converter.ConvertPod; rw [hc]⟩
      | ok defs =>
        refine ⟨"init containers are not supported in ECS", ?_⟩
        unfold ecspod.Converter.ConvertPod
        rw [hc]
        have hlen : podSpec.initContainers.length > 0 := List.length_pos.mpr hinit
        simp [hlen, hskip]
    · cases hc : (ecsx.Converter.mk o).convertContainers false spec.containers with
      | error e =>
        exact ⟨_, by unfold ecsx.Converter.Convert; rw [hc]⟩
      | ok defs =>
        refine ⟨"init containers are not supported in ECS", ?_⟩
        unfold ecsx.Converter.Convert
        rw [hc]
        have hlen : spec.initContainers.length > 0 := List.length_pos.mpr hinitx
        simp [hlen, hskip]
  · intro hskip
    obtain ⟨defs, hd⟩ :=
      ecspod.convertContainers_total ⟨o⟩ hskip ns false podSpec.containers
    obtain ⟨vols, hv⟩ := ecspod.convertVolumes_total ⟨o⟩ hskip podSpec.volumes
    obtain ⟨defsx, hdx⟩ := ecsx.convertContainers_totalX ⟨o⟩ hskip false spec.containers
    obtain ⟨volsx, hvx⟩ := ecsx.convertVolumes_totalX ⟨o⟩ hskip spec.volumes
    refine ⟨⟨_, ecspod.ConvertPod_skip_true ⟨o⟩ hskip pod podSpec ecsConfig ns defs vols hd hv, ?_⟩,
      ?_, ⟨_, ecsx.Convert_skip_true ⟨o⟩ hskip spec defsx volsx hdx hvx, ?_⟩, ?_⟩
    · exact hd.symm
    · rw [ecspod.ConvertPod_skip_true ⟨o⟩ hskip pod podSpec ecsConfig ns defs vols hd hv,
        ecspod.ConvertPod_skip_true ⟨o⟩ hskip pod
          { podSpec with initContainers := [] } ecsConfig ns defs vols hd hv]
    · exact hdx.symm
    · rw [ecsx.Convert_skip_true ⟨o⟩ hskip spec defsx volsx hdx hvx,
        ecsx.Convert_skip_true ⟨o⟩ hskip { spec with initContainers := [] } defsx volsx hdx hvx]
      rfl

/-- Witness for C4 at a spec with one init container, under both option
settings. -/
theorem C4_init_containers_witness :
    (∃ e, conv0.ConvertPod none specInit {} "default" = Except.error e) ∧
    (∃ td, convSkip.ConvertPod none specInit {} "default" = Except.ok td ∧
      Except.ok td.containerDefinitions
        = convSkip.convertContainers "default" false specInit.containers) :=
  ⟨(C4_init_containers conv0.options none specInit {} "default"
      { containers := specInit.containers, initContainers := specInit.initContainers }
      (by decide) (by decide)).1 rfl |>.1,
   ((C4_init_containers convSkip.options none specInit {} "default"
      { containers := specInit.containers, initContainers := specInit.initContainers }
      (by decide) (by decide)).2 rfl).2.2.1⟩

/-- C9: the Pod-native converter never inspects container security contexts
or the Pod's host network/PID/IPC flags or pod security context: any two Pod
specs that agree after erasing those fields convert identically. -/
theorem C9_converter_ignores_security (c : ecspod.Converter) (pod : Option Pod)
    (s1 s2 : PodSpec) (ecsConfig : ECSConfig) (ns : String)
    (h : scrubPodSpec s1 = scrubPodSpec s2) :
    c.ConvertPod pod s1 ecsConfig ns = c.ConvertPod pod s2 ecsConfig ns := by
  rw [← ecspod.ConvertPod_scrub c pod s1 ecsConfig ns, h, ecspod.ConvertPod_scrub]

/-- Witness for C9: a privileged, host-network Pod spec converts exactly as
its plain counterpart. -/
theorem C9_converter_ignores_security_witness :
    conv0.ConvertPod none spec9priv {} "default"
      = conv0.ConvertPod none spec9plain {} "default" :=
  C9_converter_ignores_security conv0 none spec9priv spec9plain {} "default" (by decide)

/-- C8 counterexample: two ECS configs whose tag maps are equal (the tag
lists are permutations of each other, i.e. the same Go map under two
iteration orders) produce different task definitions: the Tags lists come
out in different orders, so Convert is not deterministic in the sense the
claim states. -/
theorem C8_counterexample :
    cfg8.tags.Perm cfg8r.tags ∧
    (conv0.ConvertPod none spec8 cfg8 "default").map (fun td => td.tags)
      = Except.ok [{ key := "a", value := "1" }, { key := "b", value := "2" }] ∧
    (conv0.ConvertPod none spec8 cfg8r "default").map (fun td => td.tags)
      = Except.ok [{ key := "b", value := "2" }, { key := "a", value := "1" }] ∧
    conv0.ConvertPod none spec8 cfg8 "default"
      ≠ conv0.ConvertPod none spec8 cfg8r "default" :=
  ⟨by decide, by decide, by decide, by decide⟩

/-- C8 (amended): Convert is deterministic up to the ordering of the Tags
list, which follows the Go map iteration order: permuting the tag map's
iteration order yields a task definition identical in every field except
Tags, whose list is permuted accordingly; container-definition order is the
input order and error behavior is unchanged. -/
theorem C8_deterministic_up_to_tag_order (c : ecspod.Converter) (pod : Option Pod)
    (podSpec : PodSpec) (ecsConfig : ECSConfig) (ns : String)
    (t2 : List (String × String)) (hperm : ecsConfig.tags.Perm t2) :
    Except.map stripTags (c.ConvertPod pod podSpec ecsConfig ns)
      = Except.map stripTags (c.ConvertPod pod podSpec { ecsConfig with tags := t2 } ns) ∧
    (∀ td1 td2, c.ConvertPod pod podSpec ecsConfig ns = Except.ok td1 →
      c.ConvertPod pod podSpec { ecsConfig with tags := t2 } ns = Except.ok td2 →
      td1.tags.Perm td2.tags) := by
  have hlen : ecsConfig.tags.length = t2.length := hperm.length_eq
  unfold ecspod.Converter.ConvertPod
  cases hc : c.convertContainers ns false podSpec.containers with
  | error e =>
    refine ⟨rfl, ?_⟩
    intro td1 td2 h1 h2
    exact absurd h1 (by simp)
  | ok defs =>
    by_cases hinit :
        (podSpec.initContainers.length > 0 && !c.options.skipUnsupportedFeatures) = true
    · simp only [hinit, if_true]
      refine ⟨by trivial, ?_⟩
      intro td1 td2 h1 h2
      exact absurd h1 (by simp)
    · simp only [hinit, if_false, Bool.false_eq_true]
      cases hvv : c.convertVolumes podSpec.volumes with
      | error e =>
        refine ⟨rfl, ?_⟩
        intro td1 td2 h1 h2
        exact absurd h1 (by simp)
      | ok vols =>
        constructor
        · simp [stripTags, Except.map, ecspod.Converter.getTaskRoleArn,
            ecspod.Converter.getExecutionRoleArn, ecspod.Converter.getNetworkMode,
            ecspod.Converter.getRequiresCompatibilities]
        · intro td1 td2 h1 h2
          simp only [Except.ok.injEq] at h1 h2
          subst h1
          subst h2
          simp only []
          rw [← hlen]
          by_cases ht : ecsConfig.tags.length > 0
          · simp only [ht, if_true]
            exact hperm.map _
          · simp only [ht, if_false]
            exact List.Perm.refl _

/-- Witness for C8 (amended) at the two-entry tag map under its two iteration
orders. -/
theorem C8_deterministic_up_to_tag_order_witness :
    Except.map stripTags (conv0.ConvertPod none spec8 cfg8 "default")
      = Except.map stripTags
          (conv0.ConvertPod none spec8 { cfg8 with tags := cfg8r.tags } "default") :=
  (C8_deterministic_up_to_tag_order conv0 none spec8 cfg8 "default" cfg8r.tags (by decide)).1
